import Mathlib

/-!
Verification of the TensorFlow-Models repository wrappers: the
speech-command recognizer factory (`speech-commands/src/index.ts`), the
recognizer interface behaviors documented in `speech-commands/src/types.ts`,
the test-backend setup in `jasmine.ts`, and the PoseNet memory discipline
asserted by its unit test.
-/

namespace TFModels

/-- A single quote character, used to build error-message strings. -/
def squote : String := String.singleton (Char.ofNat 39)

/-! ## Speech-command recognizer factory (`speech-commands/src/index.ts`) -/

/-- The recognizer constructed by the factory for the BROWSER_FFT type.
Its implementation lives outside the factory; the factory only calls
`new BrowserFftSpeechCommandRecognizer()`, so we record the identity of the
freshly allocated instance. -/
structure BrowserFftSpeechCommandRecognizer where
  instanceId : Nat
deriving DecidableEq, Repr

/-- Embedding of `create(fftType)` from `speech-commands/src/index.ts`.
At runtime `fftType` is an arbitrary string.  Constructing a new object is
modelled by an allocation counter `nextId`: the returned instance uses the
current counter and the counter advances; on a throw nothing is allocated.
Mirrors:
```
if (fftType === 'BROWSER_FFT') return new BrowserFftSpeechCommandRecognizer();
else if (fftType === 'SOFT_FFT') throw new Error('SOFT_FFT SpeechCommandRecognizer has not been implemented yet.');
else throw new Error(`Invalid fftType: ...`);
```
-/
def create (fftType : String) (nextId : Nat) :
    Except String BrowserFftSpeechCommandRecognizer × Nat :=
  if fftType = "BROWSER_FFT" then
    (Except.ok ⟨nextId⟩, nextId + 1)
  else if fftType = "SOFT_FFT" then
    (Except.error "SOFT_FFT SpeechCommandRecognizer has not been implemented yet.",
     nextId)
  else
    (Except.error ("Invalid fftType: " ++ squote ++ fftType ++ squote), nextId)

/-! ## Test runner (`jasmine.ts`) -/

/-- A test backend as seen by `runTests`: only its `name` field is consulted. -/
structure Backend where
  name : String
deriving DecidableEq, Repr

/-- The externally visible actions `runTests` performs, in order. -/
inductive TestAction where
  | setBackends (bs : List Backend)
  | loadConfig
  | execute
deriving DecidableEq, Repr

/-- Embedding of `runTests(jasmine_util)` from `jasmine.ts` as the trace of
actions it performs on the test environment:
`setTestBackends(TEST_BACKENDS.filter(x => x.name === 'test-cpu'))`, then
`runner.loadConfig(...)`, then `runner.execute()`. -/
def runTests (testBackends : List Backend) : List TestAction :=
  [TestAction.setBackends (testBackends.filter (fun x => x.name == "test-cpu")),
   TestAction.loadConfig,
   TestAction.execute]

/-! ## Streaming recognition state (`speech-commands/src/types.ts`) -/

/-- The two streaming operations a recognizer exposes. -/
inductive StreamOp where
  | start
  | stop
deriving DecidableEq, Repr

/-- Modelled from the spec: the implementation of
`startStreaming`/`stopStreaming`/`isStreaming` is not in the repository
snapshot; only the `SpeechCommandRecognizer` interface with its documented
contract is.  Per that contract the recognizer keeps one boolean streaming
flag (returned by `isStreaming()`): `startStreaming` throws if there is
already ongoing streaming recognition and otherwise begins one;
`stopStreaming` throws if no streaming recognition is ongoing and otherwise
ends it.  A throw leaves the state unchanged. -/
def stepStream (streaming : Bool) (op : StreamOp) : Except String Bool :=
  match op with
  | StreamOp.start =>
      if streaming then
        Except.error "Cannot start streaming again when streaming is ongoing."
      else
        Except.ok true
  | StreamOp.stop =>
      if streaming then
        Except.ok false
      else
        Except.error "Cannot stop streaming when streaming is not ongoing."

/-- Apply one streaming operation, a failed call leaving the flag unchanged. -/
def applyStream (streaming : Bool) (op : StreamOp) : Bool :=
  match stepStream streaming op with
  | Except.ok b => b
  | Except.error _ => streaming

/-- Run a sequence of streaming operations from a given flag value. -/
def runStream (streaming : Bool) (ops : List StreamOp) : Bool :=
  ops.foldl applyStream streaming

/-! ## Offline recognition (`speech-commands/src/types.ts`, `recognize`) -/

/-- A snippet of audio spectrogram (`SpectrogramData` in `types.ts`); the
float32 samples are modelled as rationals. -/
structure SpectrogramData where
  data : List ℚ
  frameSize : Nat
deriving DecidableEq, Repr

/-- A result emitted by a speech-command recognizer
(`SpeechCommandRecognizerResult` in `types.ts`): probability scores plus an
optional spectrogram. -/
structure SpeechCommandRecognizerResult where
  scores : List ℚ
  spectrogram : Option SpectrogramData := none
deriving DecidableEq, Repr

/-- The input accepted by `recognize`: either a `Float32Array` or a
`tf.Tensor`, which carries a shape. -/
inductive RecognizeInput where
  | floatArray (data : List ℚ)
  | tensor (shape : List Nat) (data : List ℚ)
deriving DecidableEq, Repr

/-- The data a loaded recognizer model exposes: the required FFT length per
frame, the required frame count, the input shape of the underlying
`tf.Model`, and the underlying inference computation (performed by the
external tensor library, so kept as an abstract function producing the
probability scores). -/
structure RecognizerModel where
  fftLength : Nat
  frameCount : Nat
  inputShape : List Nat
  predict : List ℚ → List ℚ

/-- Modelled from the spec: the implementation of `recognize` is not in the
repository snapshot; only its interface contract is.  Per that contract a
`Float32Array` input must have length equal to (the model required FFT
length) * (the model required frame count) and a `tf.Tensor` input must
match the input shape of the underlying `tf.Model`; a mismatch throws, and
a conforming input resolves to a result with the probability scores. -/
def recognize (m : RecognizerModel) (input : RecognizeInput) :
    Except String SpeechCommandRecognizerResult :=
  match input with
  | RecognizeInput.floatArray data =>
      if data.length = m.fftLength * m.frameCount then
        Except.ok ⟨m.predict data, none⟩
      else
        Except.error "Mismatch in the length of the input Float32Array."
  | RecognizeInput.tensor shape data =>
      if shape = m.inputShape then
        Except.ok ⟨m.predict data, none⟩
      else
        Except.error "Mismatch in the shape of the input Tensor."

/-! ## Transfer-learning example store (`speech-commands/src/types.ts`) -/

/-- A transfer-learning recognizer, reduced to the data its example
bookkeeping touches: the words the base model is trained to recognize, and
the examples collected so far, in collection order. -/
structure TransferRecognizer where
  baseWords : List String
  examples : List (String × SpectrogramData)
deriving DecidableEq, Repr

/-- Modelled from the spec: the implementation of `collectExample` is not in
the repository snapshot; only its interface contract is.  Per that contract
the word must not overlap with any of the words the base model is trained to
recognize — if it does, an Error is thrown and nothing is collected —
and otherwise the call appends the acquired example and resolves to its
`SpectrogramData`. -/
def collectExample (r : TransferRecognizer) (word : String)
    (sp : SpectrogramData) :
    Except String (TransferRecognizer × SpectrogramData) :=
  if word ∈ r.baseWords then
    Except.error ("Word " ++ word ++
      " belongs to the set of words the base model is trained to recognize.")
  else
    Except.ok ({ r with examples := r.examples ++ [(word, sp)] }, sp)

/-- Modelled from the spec: `clearExamples` clears all transfer-learning
examples collected so far. -/
def clearExamples (r : TransferRecognizer) : TransferRecognizer :=
  { r with examples := [] }

/-- Number of collected examples for one word: the entry `countExamples()[w]`
of the map returned by `countExamples`. -/
def exampleCount (r : TransferRecognizer) (word : String) : Nat :=
  (r.examples.filter (fun p => p.1 == word)).length

/-- Modelled from the spec: `countExamples` returns a map from word name to
the number of examples collected for that word so far, with one entry per
distinct collected word. -/
def countExamples (r : TransferRecognizer) : List (String × Nat) :=
  ((r.examples.map Prod.fst).eraseDups).map (fun w => (w, exampleCount r w))

/-- The example-store operations a client can perform. -/
inductive TLOp where
  | collect (word : String) (sp : SpectrogramData)
  | clear
deriving DecidableEq, Repr

/-- Apply one example-store operation; a thrown `collectExample` leaves the
store unchanged. -/
def applyTL (r : TransferRecognizer) (op : TLOp) : TransferRecognizer :=
  match op with
  | TLOp.collect w sp =>
      match collectExample r w sp with
      | Except.ok (r2, _) => r2
      | Except.error _ => r
  | TLOp.clear => clearExamples r

/-- Run a sequence of example-store operations. -/
def runTL (r : TransferRecognizer) (ops : List TLOp) : TransferRecognizer :=
  ops.foldl applyTL r

/-- Tally of successful `collectExample(w)` calls since the most recent
`clearExamples`: a clear resets the tally, a collect of `w` that succeeds
(its word is outside the base vocabulary) adds one. -/
def collectTally (base : List String) (w : String) (n : Nat) (op : TLOp) :
    Nat :=
  match op with
  | TLOp.clear => 0
  | TLOp.collect v _ => if v = w ∧ v ∉ base then n + 1 else n

/-! ## Streaming window timing (`speech-commands/src/types.ts`) -/

/-- Modelled from the spec: the streaming loop implementation is not in the
repository snapshot; only the documented contract of
`StreamingRecognitionConfig.overlapFactor` is.  Per that contract, with
overlap factor `o` and a model frame duration of `d` milliseconds, frames are
taken every `(1 - o) * d` milliseconds, so the `i`-th analysis window starts
at `i * (1 - o) * d` ms. -/
def windowStartMillis (o d : ℚ) (i : ℕ) : ℚ :=
  i * ((1 - o) * d)

/-- End time of the `i`-th analysis window: it spans one frame duration. -/
def windowEndMillis (o d : ℚ) (i : ℕ) : ℚ :=
  windowStartMillis o d i + d

/-- Temporal overlap between windows `i` and `j`: the length of the
intersection of their time intervals. -/
def windowOverlapMillis (o d : ℚ) (i j : ℕ) : ℚ :=
  max 0 (min (windowEndMillis o d i) (windowEndMillis o d j) -
         max (windowStartMillis o d i) (windowStartMillis o d j))

/-! ## PoseNet tensor bookkeeping (`posenet` test, `src/unnamed/part_000`) -/

/-- A pose produced by PoseNet post-processing: plain keypoint data holding
no tensors. -/
structure Pose where
  keypointScores : List ℚ
deriving DecidableEq, Repr

/-- The tensor-engine state `tf.memory()` observes: the ids of the live
(allocated, undisposed) tensors, and the next fresh id. -/
structure TensorEngine where
  live : List Nat
  nextId : Nat
deriving DecidableEq, Repr

/-- `tf.memory().numTensors`: the number of live tensors. -/
def numTensors (e : TensorEngine) : Nat :=
  e.live.length

/-- Allocate `k` fresh tensors. -/
def allocTensors (k : Nat) (e : TensorEngine) : TensorEngine :=
  { live := e.live ++ (List.range k).map (e.nextId + ·), nextId := e.nextId + k }

/-- `tf.tidy` semantics: run a computation that allocates `k` intermediate
tensors, then dispose every tensor that was not live before the scope was
entered (the returned poses are plain data and retain none). -/
def tidyScope (k : Nat) (e : TensorEngine) : TensorEngine :=
  let e2 := allocTensors k e
  { live := e2.live.filter (fun id => decide (id ∈ e.live)), nextId := e2.nextId }

/-- Modelled from the spec: the PoseNet implementation is not in the
repository snapshot; only its unit test is, which asserts that
`estimateSinglePose` leaves `tf.memory().numTensors` unchanged.  Per the spec
the façade marshals inputs, invokes inference — allocating intermediate
tensors in the library — and post-processes the outputs into plain keypoint
data inside a `tf.tidy` scope, so every intermediate tensor is disposed. -/
def estimateSinglePose (interTensors : Nat) (pose : Pose) (e : TensorEngine) :
    TensorEngine × Pose :=
  (tidyScope interTensors e, pose)

/-- Modelled from the spec: `estimateMultiplePoses`, like
`estimateSinglePose`, wraps its inference and post-processing in a `tf.tidy`
scope and returns plain pose data. -/
def estimateMultiplePoses (interTensors : Nat) (poses : List Pose)
    (e : TensorEngine) : TensorEngine × List Pose :=
  (tidyScope interTensors e, poses)

end TFModels

namespace TFModels

/-- C1: `create(fftType)` returns a recognizer exactly when
`fftType = "BROWSER_FFT"`; in that case it returns a freshly constructed
`BrowserFftSpeechCommandRecognizer` without throwing. -/
theorem create_returns_iff_browser_fft (fftType : String) (nextId : Nat) :
    ((∃ r : BrowserFftSpeechCommandRecognizer,
        (create fftType nextId).1 = Except.ok r) ↔ fftType = "BROWSER_FFT") ∧
    (fftType = "BROWSER_FFT" →
      create fftType nextId = (Except.ok ⟨nextId⟩, nextId + 1)) := by
  constructor
  · constructor
    · rintro ⟨r, hr⟩
      by_contra hne
      unfold create at hr
      rw [if_neg hne] at hr
      by_cases hs : fftType = "SOFT_FFT" <;> simp [hs] at hr
    · intro h
      exact ⟨⟨nextId⟩, by simp [create, h]⟩
  · intro h
    simp [create, h]

/-- Witness for C1 at the concrete input "BROWSER_FFT". -/
theorem create_returns_iff_browser_fft_witness :
    create "BROWSER_FFT" 0 = (Except.ok ⟨0⟩, 1) :=
  (create_returns_iff_browser_fft "BROWSER_FFT" 0).2 rfl

/-- C2: for every `fftType` other than `"BROWSER_FFT"`, `create` throws: for
`"SOFT_FFT"` with the not-implemented message, and for any other value with
an `Invalid fftType` message quoting the value; no recognizer is constructed
(the allocation counter does not advance). -/
theorem create_throws_on_non_browser_fft (fftType : String) (nextId : Nat)
    (h : fftType ≠ "BROWSER_FFT") :
    (fftType = "SOFT_FFT" →
      create fftType nextId =
        (Except.error
          "SOFT_FFT SpeechCommandRecognizer has not been implemented yet.",
         nextId)) ∧
    (fftType ≠ "SOFT_FFT" →
      create fftType nextId =
        (Except.error ("Invalid fftType: " ++ squote ++ fftType ++ squote),
         nextId)) ∧
    ∀ r : BrowserFftSpeechCommandRecognizer,
      (create fftType nextId).1 ≠ Except.ok r := by
  refine ⟨fun hs => by simp [create, h, hs], fun hs => by simp [create, h, hs],
    fun r => ?_⟩
  by_cases hs : fftType = "SOFT_FFT" <;> simp [create, h, hs]

/-- Witness for C2 at the concrete inputs "SOFT_FFT" and "bogus". -/
theorem create_throws_on_non_browser_fft_witness :
    (create "SOFT_FFT" 5 =
      (Except.error
        "SOFT_FFT SpeechCommandRecognizer has not been implemented yet.", 5)) ∧
    (create "bogus" 5 =
      (Except.error ("Invalid fftType: " ++ squote ++ "bogus" ++ squote), 5)) := by
  have h1 := create_throws_on_non_browser_fft "SOFT_FFT" 5 (by decide)
  have h2 := create_throws_on_non_browser_fft "bogus" 5 (by decide)
  exact ⟨h1.1 rfl, h2.2.1 (by decide)⟩

/-- C8: `create` is deterministic in its argument: two calls with the same
`fftType` take the same branch regardless of allocation state — they either
both throw with identical messages, or both return a recognizer, and each
returned recognizer is fresh (its id is the state's allocation counter). -/
theorem create_deterministic (fftType : String) (n₁ n₂ : Nat) :
    (∀ msg, (create fftType n₁).1 = Except.error msg ↔
            (create fftType n₂).1 = Except.error msg) ∧
    ((∃ r, (create fftType n₁).1 = Except.ok r) ↔
     (∃ r, (create fftType n₂).1 = Except.ok r)) ∧
    (∀ r, (create fftType n₁).1 = Except.ok r → r.instanceId = n₁) := by
  unfold create
  by_cases hb : fftType = "BROWSER_FFT"
  · subst hb
    refine ⟨fun msg => by simp, by simp, fun r hr => ?_⟩
    simp at hr
    rw [← hr]
  · by_cases hs : fftType = "SOFT_FFT" <;>
      refine ⟨fun msg => by simp [hb, hs], by simp [hb, hs], fun r hr => ?_⟩ <;>
      simp [hb, hs] at hr

/-- C3: streaming recognition is a two-state machine: `startStreaming` throws
exactly when streaming is already ongoing, `stopStreaming` throws exactly when
none is ongoing, a successful start makes `isStreaming()` true and a
successful stop makes it false, and the flag keeps its value until the
opposite operation succeeds — so two streaming sessions are never active on
one recognizer at the same time. -/
theorem streaming_two_state_machine :
    (∀ streaming : Bool,
       (stepStream streaming StreamOp.start).isOk = false ↔ streaming = true) ∧
    (∀ streaming : Bool,
       (stepStream streaming StreamOp.stop).isOk = false ↔ streaming = false) ∧
    (∀ streaming next : Bool,
       stepStream streaming StreamOp.start = Except.ok next → next = true) ∧
    (∀ streaming next : Bool,
       stepStream streaming StreamOp.stop = Except.ok next → next = false) ∧
    (∀ ops : List StreamOp, (∀ op ∈ ops, op ≠ StreamOp.stop) →
       runStream true ops = true) ∧
    (∀ ops : List StreamOp, (∀ op ∈ ops, op ≠ StreamOp.start) →
       runStream false ops = false) := by
  refine ⟨by decide, by decide, ?_, ?_, ?_, ?_⟩
  · intro streaming next h
    cases streaming <;> simp [stepStream] at h
    simp_all
  · intro streaming next h
    cases streaming <;> simp [stepStream] at h
    simp_all
  · intro ops h
    induction ops with
    | nil => rfl
    | cons op rest ih =>
        cases op with
        | start =>
            exact ih fun o ho => h o (List.mem_cons_of_mem _ ho)
        | stop =>
            exact absurd rfl (h StreamOp.stop (List.mem_cons_self _ _))
  · intro ops h
    induction ops with
    | nil => rfl
    | cons op rest ih =>
        cases op with
        | start =>
            exact absurd rfl (h StreamOp.start (List.mem_cons_self _ _))
        | stop =>
            exact ih fun o ho => h o (List.mem_cons_of_mem _ ho)

/-- Witness for C3: concrete runs in which redundant starts and stops fail
and leave the streaming flag unchanged. -/
theorem streaming_two_state_machine_witness :
    runStream true [StreamOp.start, StreamOp.start] = true ∧
    runStream false [StreamOp.stop, StreamOp.stop] = false :=
  ⟨streaming_two_state_machine.2.2.2.2.1 [StreamOp.start, StreamOp.start]
      (by decide),
   streaming_two_state_machine.2.2.2.2.2 [StreamOp.stop, StreamOp.stop]
      (by decide)⟩

/-- C4: `recognize` validates its input shape: a `Float32Array` whose length
differs from fftLength * frameCount throws, a `tf.Tensor` whose shape differs
from the model input shape throws, and a conforming input resolves to a
result carrying the probability scores computed by the underlying model. -/
theorem recognize_validates_shape (m : RecognizerModel) :
    (∀ data : List ℚ, data.length ≠ m.fftLength * m.frameCount →
       (recognize m (RecognizeInput.floatArray data)).isOk = false) ∧
    (∀ (shape : List Nat) (data : List ℚ), shape ≠ m.inputShape →
       (recognize m (RecognizeInput.tensor shape data)).isOk = false) ∧
    (∀ data : List ℚ, data.length = m.fftLength * m.frameCount →
       recognize m (RecognizeInput.floatArray data) =
         Except.ok ⟨m.predict data, none⟩) ∧
    (∀ data : List ℚ,
       recognize m (RecognizeInput.tensor m.inputShape data) =
         Except.ok ⟨m.predict data, none⟩) := by
  refine ⟨fun data h => ?_, fun shape data h => ?_, fun data h => ?_,
    fun data => ?_⟩
  · simp [recognize, h, Except.isOk, Except.toBool]
  · simp [recognize, h, Except.isOk, Except.toBool]
  · simp [recognize, h]
  · simp [recognize]

/-- A concrete recognizer model used to witness shape validation: FFT length
2, frame count 3, model input shape [3, 2, 1], constant scores. -/
def demoModel : RecognizerModel :=
  { fftLength := 2
    frameCount := 3
    inputShape := [3, 2, 1]
    predict := fun _ => [1/2, 1/2] }

/-- Witness for C4 on the concrete model: a conforming Float32Array of
length 6 and a conforming tensor both resolve, a length-5 array and a
wrongly shaped tensor both throw. -/
theorem recognize_validates_shape_witness :
    recognize demoModel (RecognizeInput.floatArray [1, 2, 3, 4, 5, 6]) =
      Except.ok ⟨[1/2, 1/2], none⟩ ∧
    recognize demoModel (RecognizeInput.tensor [3, 2, 1] [0]) =
      Except.ok ⟨[1/2, 1/2], none⟩ ∧
    (recognize demoModel (RecognizeInput.floatArray [1, 2, 3, 4, 5])).isOk
      = false ∧
    (recognize demoModel (RecognizeInput.tensor [9] [])).isOk = false :=
  ⟨(recognize_validates_shape demoModel).2.2.1 [1, 2, 3, 4, 5, 6] (by decide),
   (recognize_validates_shape demoModel).2.2.2 [0],
   (recognize_validates_shape demoModel).1 [1, 2, 3, 4, 5] (by decide),
   (recognize_validates_shape demoModel).2.1 [9] [] (by decide)⟩

lemma applyTL_baseWords (r : TransferRecognizer) (op : TLOp) :
    (applyTL r op).baseWords = r.baseWords := by
  cases op with
  | collect w sp =>
      unfold applyTL collectExample
      by_cases h : w ∈ r.baseWords <;> simp [h]
  | clear => rfl

lemma exampleCount_applyTL (r : TransferRecognizer) (op : TLOp) (w : String) :
    exampleCount (applyTL r op) w =
      collectTally r.baseWords w (exampleCount r w) op := by
  cases op with
  | clear => rfl
  | collect v sp =>
      by_cases hb : v ∈ r.baseWords
      · simp [applyTL, collectExample, hb, collectTally]
      · by_cases hw : v = w
        · subst hw
          simp [applyTL, collectExample, hb, collectTally, exampleCount,
            List.filter_append]
        · simp [applyTL, collectExample, hb, collectTally, hw, exampleCount,
            List.filter_append]

lemma exampleCount_runTL (ops : List TLOp) (r : TransferRecognizer)
    (w : String) :
    exampleCount (runTL r ops) w =
      ops.foldl (collectTally r.baseWords w) (exampleCount r w) := by
  induction ops generalizing r with
  | nil => rfl
  | cons op rest ih =>
      show exampleCount (runTL (applyTL r op) rest) w = _
      rw [ih (applyTL r op), applyTL_baseWords, exampleCount_applyTL]
      rfl

/-- C5: for every word w, the count reported for w equals the number of
successful `collectExample(w)` calls since construction or the most recent
`clearExamples()`; each successful collect adds exactly one to that word's
count and leaves every other word's count unchanged, and after
`clearExamples()` the returned map is empty. -/
theorem countExamples_tracks_collects :
    (∀ (r r2 : TransferRecognizer) (w : String) (sp sp2 : SpectrogramData),
       collectExample r w sp = Except.ok (r2, sp2) →
         exampleCount r2 w = exampleCount r w + 1 ∧
         ∀ v, v ≠ w → exampleCount r2 v = exampleCount r v) ∧
    (∀ r : TransferRecognizer, countExamples (clearExamples r) = []) ∧
    (∀ (base : List String) (ops : List TLOp) (w : String),
       exampleCount (runTL (TransferRecognizer.mk base []) ops) w =
         ops.foldl (collectTally base w) 0) := by
  refine ⟨?_, fun r => rfl, ?_⟩
  · intro r r2 w sp sp2 h
    unfold collectExample at h
    by_cases hb : w ∈ r.baseWords
    · rw [if_pos hb] at h
      exact absurd h (by simp)
    · rw [if_neg hb] at h
      injection h with h2
      injection h2 with hr hs
      subst hr
      constructor
      · simp [exampleCount, List.filter_append]
      · intro v hv
        simp [exampleCount, List.filter_append, Ne.symm hv]
  · intro base ops w
    exact exampleCount_runTL ops (TransferRecognizer.mk base []) w

/-- Witness for C5: a successful collect adds one; clearing empties the map;
a run with a clear, two successful collects of "blue" and one rejected
collect of the base word "one" reports a count of 2 for "blue". -/
theorem countExamples_tracks_collects_witness :
    exampleCount
        (TransferRecognizer.mk ["one"] [("red", SpectrogramData.mk [] 232)])
        "red" =
      exampleCount (TransferRecognizer.mk ["one"] []) "red" + 1 ∧
    countExamples (clearExamples
      (TransferRecognizer.mk ["one"] [("red", SpectrogramData.mk [] 232)]))
      = [] ∧
    exampleCount (runTL (TransferRecognizer.mk ["one"] [])
      [TLOp.collect "red" (SpectrogramData.mk [] 232),
       TLOp.clear,
       TLOp.collect "blue" (SpectrogramData.mk [] 232),
       TLOp.collect "blue" (SpectrogramData.mk [] 232),
       TLOp.collect "one" (SpectrogramData.mk [] 232)]) "blue" = 2 :=
  ⟨(countExamples_tracks_collects.1 (TransferRecognizer.mk ["one"] [])
      (TransferRecognizer.mk ["one"] [("red", SpectrogramData.mk [] 232)])
      "red" (SpectrogramData.mk [] 232) (SpectrogramData.mk [] 232) rfl).1,
   countExamples_tracks_collects.2.1
      (TransferRecognizer.mk ["one"] [("red", SpectrogramData.mk [] 232)]),
   (countExamples_tracks_collects.2.2 ["one"]
      [TLOp.collect "red" (SpectrogramData.mk [] 232),
       TLOp.clear,
       TLOp.collect "blue" (SpectrogramData.mk [] 232),
       TLOp.collect "blue" (SpectrogramData.mk [] 232),
       TLOp.collect "one" (SpectrogramData.mk [] 232)] "blue").trans
      (by decide)⟩

/-- C6: `collectExample(w)` throws and collects nothing when w belongs to the
base model's vocabulary, and otherwise appends the acquired example and
resolves to its SpectrogramData. -/
theorem collectExample_rejects_base_words (r : TransferRecognizer)
    (w : String) (sp : SpectrogramData) :
    (w ∈ r.baseWords →
       (collectExample r w sp).isOk = false ∧
       applyTL r (TLOp.collect w sp) = r) ∧
    (w ∉ r.baseWords →
       collectExample r w sp =
         Except.ok ({ r with examples := r.examples ++ [(w, sp)] }, sp)) := by
  constructor
  · intro hb
    constructor
    · simp [collectExample, hb, Except.isOk, Except.toBool]
    · simp [applyTL, collectExample, hb]
  · intro hb
    simp [collectExample, hb]

/-- Witness for C6: collecting the base word "one" fails and changes nothing;
collecting the new word "red" succeeds and returns its spectrogram. -/
theorem collectExample_rejects_base_words_witness :
    ((collectExample (TransferRecognizer.mk ["one"] []) "one"
        (SpectrogramData.mk [] 232)).isOk = false ∧
     applyTL (TransferRecognizer.mk ["one"] [])
        (TLOp.collect "one" (SpectrogramData.mk [] 232)) =
       TransferRecognizer.mk ["one"] []) ∧
    collectExample (TransferRecognizer.mk ["one"] []) "red"
        (SpectrogramData.mk [] 232) =
      Except.ok (TransferRecognizer.mk ["one"]
        [("red", SpectrogramData.mk [] 232)], SpectrogramData.mk [] 232) :=
  ⟨(collectExample_rejects_base_words (TransferRecognizer.mk ["one"] [])
      "one" (SpectrogramData.mk [] 232)).1 (by decide),
   (collectExample_rejects_base_words (TransferRecognizer.mk ["one"] [])
      "red" (SpectrogramData.mk [] 232)).2 (by decide)⟩

/-- C7: with overlap factor o (0 ≤ o < 1) and frame duration d ms, successive
analysis windows start (1 - o) * d ms apart and their temporal intersection
has length o * d ms. -/
theorem streaming_window_overlap (o d : ℚ) (i : ℕ)
    (h0 : 0 ≤ o) (h1 : o < 1) (hd : 0 < d) :
    windowStartMillis o d (i + 1) - windowStartMillis o d i = (1 - o) * d ∧
    windowOverlapMillis o d i (i + 1) = o * d := by
  have hstep : windowStartMillis o d (i + 1) =
      windowStartMillis o d i + (1 - o) * d := by
    unfold windowStartMillis
    push_cast
    ring
  have hod : 0 ≤ (1 - o) * d := mul_nonneg (by linarith) hd.le
  have hod2 : 0 ≤ o * d := mul_nonneg h0 hd.le
  have hsum : (1 - o) * d + o * d = d := by ring
  constructor
  · rw [hstep]; ring
  · unfold windowOverlapMillis windowEndMillis
    have hmin : min (windowStartMillis o d i + d)
        (windowStartMillis o d (i + 1) + d) = windowStartMillis o d i + d := by
      rw [hstep]; exact min_eq_left (by linarith)
    have hmax : max (windowStartMillis o d i) (windowStartMillis o d (i + 1))
        = windowStartMillis o d i + (1 - o) * d := by
      rw [hstep]; exact max_eq_right (by linarith)
    rw [hmin, hmax]
    have houter : max 0 (windowStartMillis o d i + d -
        (windowStartMillis o d i + (1 - o) * d)) =
        windowStartMillis o d i + d -
        (windowStartMillis o d i + (1 - o) * d) :=
      max_eq_right (by linarith)
    rw [houter]
    linarith

/-- Witness for C7 at the documented example: a 1000-ms frame and overlap
factor 0.4 give windows 600 ms apart overlapping for 400 ms. -/
theorem streaming_window_overlap_witness :
    windowStartMillis (2/5) 1000 1 - windowStartMillis (2/5) 1000 0 = 600 ∧
    windowOverlapMillis (2/5) 1000 0 1 = 400 := by
  have h := streaming_window_overlap (2/5) 1000 0 (by norm_num) (by norm_num)
    (by norm_num)
  exact ⟨h.1.trans (by norm_num), h.2.trans (by norm_num)⟩

lemma tidyScope_live (k : Nat) (e : TensorEngine)
    (hw : ∀ id ∈ e.live, id < e.nextId) :
    (tidyScope k e).live = e.live := by
  show (e.live ++ (List.range k).map (e.nextId + ·)).filter
      (fun id => decide (id ∈ e.live)) = e.live
  rw [List.filter_append]
  have h1 : e.live.filter (fun id => decide (id ∈ e.live)) = e.live :=
    List.filter_eq_self.mpr fun a ha => decide_eq_true ha
  have h2 : ((List.range k).map (e.nextId + ·)).filter
      (fun id => decide (id ∈ e.live)) = [] := by
    refine List.filter_eq_nil_iff.mpr ?_
    intro a ha
    simp only [List.mem_map, List.mem_range] at ha
    obtain ⟨j, hj, rfl⟩ := ha
    simp only [decide_eq_true_eq]
    intro hmem
    have := hw _ hmem
    omega
  rw [h1, h2, List.append_nil]

/-- C9: `estimateSinglePose` and `estimateMultiplePoses` leave the number of
allocated tensors unchanged: with any number of intermediate inference
tensors, `tf.memory().numTensors` after the call equals its value before. -/
theorem estimate_poses_no_tensor_leak (e : TensorEngine) (k : Nat)
    (pose : Pose) (poses : List Pose)
    (hw : ∀ id ∈ e.live, id < e.nextId) :
    numTensors (estimateSinglePose k pose e).1 = numTensors e ∧
    numTensors (estimateMultiplePoses k poses e).1 = numTensors e := by
  constructor <;>
    simp [estimateSinglePose, estimateMultiplePoses, numTensors,
      tidyScope_live k e hw]

/-- Witness for C9: with three live tensors and seven intermediates, both
estimators leave three tensors allocated. -/
theorem estimate_poses_no_tensor_leak_witness :
    numTensors (estimateSinglePose 7 (Pose.mk [])
      (TensorEngine.mk [0, 1, 2] 3)).1 = 3 ∧
    numTensors (estimateMultiplePoses 7 [] (TensorEngine.mk [0, 1, 2] 3)).1
      = 3 := by
  have h := estimate_poses_no_tensor_leak (TensorEngine.mk [0, 1, 2] 3) 7
    (Pose.mk []) [] (by decide)
  exact ⟨h.1.trans rfl, h.2.trans rfl⟩

/-- C10: `runTests` sets the active test backends to exactly those elements of
`TEST_BACKENDS` named "test-cpu" — every other backend is removed, none is
added (the new list is a sublist of the old) — and does so before the jasmine
runner is configured and executed. -/
theorem runTests_restricts_backends (testBackends : List Backend) :
    ∃ bs : List Backend,
      runTests testBackends =
        [TestAction.setBackends bs, TestAction.loadConfig, TestAction.execute] ∧
      (∀ b : Backend, b ∈ bs ↔ b ∈ testBackends ∧ b.name = "test-cpu") ∧
      bs.Sublist testBackends := by
  refine ⟨testBackends.filter (fun x => x.name == "test-cpu"), rfl, ?_,
    List.filter_sublist _⟩
  intro b
  simp [List.mem_filter]

end TFModels
